import Mathlib

/-!
Shallow embedding of `src/historical_species_analysis.py`
(`HistoricalSpeciesAnalyzer` and the module-level `export_data_to_js`).

Modelling conventions:
* a pandas cell that may be `NaN`/absent is an `Option`;
* years are `Int` (the `Year` column after `pd.to_numeric` holds integral
  year values), coordinates are `ℚ`;
* a parsed `Event Date` cell is an `EventDate`: the year `pandas` would
  extract via `.dt.year` together with the string form used by
  `str(date)[:10]`;
* the data file is `Option (List RawRow)`: `none` models a path for which
  `os.path.exists` is false, `some rows` the parsed CSV rows;
* the wall-clock value `datetime.now().year` is passed explicitly as the
  `current_year` argument of each function that reads it.
-/

/-- A parsed `Event Date` cell: the calendar year `pandas` extracts with
`.dt.year`, plus the textual form that `str(...)` produces. -/
structure EventDate where
  year : Int
  text : String
deriving DecidableEq

/-- One raw CSV row as read by `pd.read_csv` (line 45): every column cell
may be missing. -/
structure RawRow where
  scientificName : Option String
  latitude : Option ℚ
  longitude : Option ℚ
  eventDate : Option EventDate
  year : Option Int
  reserveName : Option String
deriving DecidableEq

/-- A cleaned occurrence record after `preprocess_dates`: the `Year` column
is guaranteed non-null (rows without a resolvable year were dropped), all
other columns stay as they were. -/
structure Record where
  scientificName : Option String
  latitude : Option ℚ
  longitude : Option ℚ
  eventDate : Option EventDate
  year : Int
  reserveName : Option String
deriving DecidableEq

/-- The year `preprocess_dates` (lines 55-68) assigns to a row: the `Year`
column value when present and non-null, otherwise the year extracted from
the parsed `Event Date` (lines 60-65), `none` when neither is available. -/
def resolveYear (row : RawRow) : Option Int :=
  match row.year with
  | some y => some y
  | none => row.eventDate.map EventDate.year

/-- `preprocess_dates` (lines 55-68): fill `Year` from `Event Date` where
missing, then `dropna(subset=['Year'])` — keep exactly the rows with a
resolvable year.  No other column is touched. -/
def preprocess_dates (rows : List RawRow) : List Record :=
  rows.filterMap fun row =>
    (resolveYear row).map fun y =>
      { scientificName := row.scientificName
        latitude := row.latitude
        longitude := row.longitude
        eventDate := row.eventDate
        year := y
        reserveName := row.reserveName }

/-- The failure `load_data` (line 43) raises when `os.path.exists` is
false (a `FileNotFoundError`; the spec's taxonomy calls it
`DataLoadError`). -/
inductive LoadError where
  | fileNotFound
deriving DecidableEq

/-- `load_data` (lines 38-53): error out when the path does not exist,
otherwise read the rows and run `preprocess_dates` on them.  There is no
emptiness check after cleaning: the cleaned list is returned as-is. -/
def load_data : Option (List RawRow) → Except LoadError (List Record)
  | none => Except.error LoadError.fileNotFound
  | some rows => Except.ok (preprocess_dates rows)

/-- One row of the `species_timeline` frame built by
`analyze_species_timeline` (lines 74-81). -/
structure SpeciesTimeline where
  scientificName : String
  firstRecord : Int
  lastRecord : Int
  totalRecords : Nat
  timeSpan : Int
  recentRecords : Bool
  missingYears : Int
deriving DecidableEq

/-- `self.data[self.data['Scientific Name'] == name]`: all cleaned records
of one species. -/
def recordsOf (rs : List Record) (name : String) : List Record :=
  rs.filter fun r => r.scientificName == some name

/-- Lexicographic comparison of character lists by code point, the order
Python sorts strings in. -/
def charListLe : List Char → List Char → Bool
  | [], _ => true
  | _ :: _, [] => false
  | a :: as, b :: bs => if a < b then true else if b < a then false else charListLe as bs

/-- `a ≤ b` on strings, by code points. -/
def stringLe (a b : String) : Bool := charListLe a.data b.data

/-- The group keys of `groupby('Scientific Name')` (line 74): the distinct
non-null names, in the ascending order pandas sorts group keys into
(null names are dropped by `groupby`). -/
def speciesNames (rs : List Record) : List String :=
  List.insertionSort (fun a b => stringLe a b = true)
    ((rs.filterMap Record.scientificName).dedup)

/-- The timeline row of one species group: `min`/`max`/`count` over `Year`
plus the derived columns of lines 76-81.  `none` when the species has no
records (such a group never arises from `speciesNames`). -/
def timelineFor (current_year recent : Int) (rs : List Record) (name : String) :
    Option SpeciesTimeline :=
  match (recordsOf rs name).map Record.year with
  | [] => none
  | y :: ys =>
    some { scientificName := name
           firstRecord := ys.foldl min y
           lastRecord := ys.foldl max y
           totalRecords := ys.length + 1
           timeSpan := ys.foldl max y - ys.foldl min y
           recentRecords := decide (ys.foldl max y ≥ current_year - recent)
           missingYears := current_year - ys.foldl max y }

/-- `analyze_species_timeline` (lines 70-90): one `SpeciesTimeline` row per
distinct non-null species name.  `current_year` stands for the
`datetime.now().year` read at line 78; `recent` is `self.recent_years`. -/
def analyze_species_timeline (current_year recent : Int) (rs : List Record) :
    List SpeciesTimeline :=
  (speciesNames rs).filterMap (timelineFor current_year recent rs)

/-- `self.cutoff_year` (line 33). -/
def cutoff_year : Int := 2000

/-- `self.recent_years` (line 34). -/
def recent_years : Int := 5

/-- `identify_missing_species` (lines 92-108): copy the timeline rows with
`Last_Record < cutoff` and sort them ascending by `Last_Record`
(`sort_values('Last_Record')` on the copy; the input frame is left
untouched). -/
def identify_missing_species (cutoff : Int) (timeline : List SpeciesTimeline) :
    List SpeciesTimeline :=
  List.insertionSort (fun a b => a.lastRecord ≤ b.lastRecord)
    (timeline.filter fun t => decide (t.lastRecord < cutoff))

/-- The `gps_data` frame of `analyze_survey_coverage` (line 122):
`dropna()` over the four projected columns `Decimal Latitude`,
`Decimal Longitude`, `Year`, `Scientific Name`.  `Year` is never null
after cleaning, so the kept rows are those with latitude, longitude AND
scientific name all present. -/
def gps_data (rs : List Record) : List Record :=
  rs.filter fun r => r.latitude.isSome && r.longitude.isSome && r.scientificName.isSome

/-- `recent_gps = gps_data[gps_data['Year'] >= historical_cutoff]`
(line 126). -/
def recent_gps (cutoff : Int) (rs : List Record) : List Record :=
  (gps_data rs).filter fun r => decide (cutoff ≤ r.year)

/-- `historical_gps = gps_data[gps_data['Year'] < historical_cutoff]`
(line 127). -/
def historical_gps (cutoff : Int) (rs : List Record) : List Record :=
  (gps_data rs).filter fun r => decide (r.year < cutoff)

/-- The spec's "GPS-bearing record set": records with both coordinates
present (this is what line 53 counts; it does NOT require a non-null
scientific name). -/
def gpsBearing (rs : List Record) : List Record :=
  rs.filter fun r => r.latitude.isSome && r.longitude.isSome

/-- Round half to even (banker's rounding) of a rational to an integer:
the rounding Python's builtin `round` performs.  Stated with `Int.floor`
for proofs; `roundHalfEven6` below is the kernel-computable version. -/
def roundHalfEven (q : ℚ) : ℤ :=
  if q - ⌊q⌋ < 1/2 then ⌊q⌋
  else if 1/2 < q - ⌊q⌋ then ⌊q⌋ + 1
  else if Even ⌊q⌋ then ⌊q⌋ else ⌊q⌋ + 1

/-- `roundHalfEven (q * 10^6)` computed on the numerator/denominator
representation (`q * 10^6 = (q.num * 10^6) / q.den` with `q.den > 0`, so
`/` and `%` on `ℤ` give its floor and fractional part). -/
def roundHalfEven6 (q : ℚ) : ℤ :=
  if 2 * (q.num * 1000000 % (q.den : ℤ)) < (q.den : ℤ) then
    q.num * 1000000 / (q.den : ℤ)
  else if (q.den : ℤ) < 2 * (q.num * 1000000 % (q.den : ℤ)) then
    q.num * 1000000 / (q.den : ℤ) + 1
  else if (q.num * 1000000 / (q.den : ℤ)) % 2 = 0 then
    q.num * 1000000 / (q.den : ℤ)
  else q.num * 1000000 / (q.den : ℤ) + 1

/-- Python's `round(x, 6)`: round to 6 decimal places, half to even. -/
def round6 (q : ℚ) : ℚ := mkRat (roundHalfEven6 q) 1000000

/-- `species_data.dropna(subset=['Decimal Latitude', 'Decimal Longitude'])`
(lines 430, 544): the GPS-bearing subset of a record list. -/
def gpsSubset (l : List Record) : List Record :=
  l.filter fun r => r.latitude.isSome && r.longitude.isSome

/-- The six geographic-range cells of a CSV row (lines 467-474 and
578-585). -/
structure GeoRange where
  minLatitude : Option ℚ
  maxLatitude : Option ℚ
  minLongitude : Option ℚ
  maxLongitude : Option ℚ
  latRange : Option ℚ
  lonRange : Option ℚ
deriving DecidableEq

/-- All six range cells `None` (line 467 / 578). -/
def emptyGeoRange : GeoRange := ⟨none, none, none, none, none, none⟩

/-- Geographic range of a species (lines 466-474 = 577-585): when the
species has more than one GPS-bearing record, min/max latitude and
longitude over that subset, each rounded to 6 decimals, and the two
rounded differences; otherwise all six cells are `None`.  The inner
fallback branch is unreachable: a non-empty GPS subset always yields
non-empty coordinate lists. -/
def geoRange (species_data : List Record) : GeoRange :=
  if 1 < (gpsSubset species_data).length then
    match (gpsSubset species_data).filterMap Record.latitude,
          (gpsSubset species_data).filterMap Record.longitude with
    | la :: las, lo :: los =>
      let minLat := round6 (las.foldl min la)
      let maxLat := round6 (las.foldl max la)
      let minLon := round6 (los.foldl min lo)
      let maxLon := round6 (los.foldl max lo)
      ⟨some minLat, some maxLat, some minLon, some maxLon,
       some (round6 (maxLat - minLat)), some (round6 (maxLon - minLon))⟩
    | _, _ => emptyGeoRange
  else emptyGeoRange

/-- `'; '.join(...)` over the distinct reserve names in order of first
appearance (`Series.unique`), lines 477-478 / 588-589. -/
def dedupKeepFirst (seen : List String) : List String → List String
  | [] => []
  | x :: xs =>
    if x ∈ seen then dedupKeepFirst seen xs
    else x :: dedupKeepFirst (x :: seen) xs

/-- `reserves_list = '; '.join(unique_reserves) if len(unique_reserves) > 0
else None` (line 478 / 589). -/
def joinReserves (names : List String) : Option String :=
  if names.isEmpty then none else some (String.intercalate "; " names)

/-- One row of the per-species CSV reports: the Species Detail Enricher
output (the dictionary built at lines 481-504 / 596-620, minus the
`Missing_Status` column of the full export). -/
structure DetailRow where
  scientificName : String
  yearsMissing : Int
  lastRecordYear : Int
  lastRecordDate : Option String
  lastKnownLatitude : Option ℚ
  lastKnownLongitude : Option ℚ
  lastKnownReserve : Option String
  firstRecordYear : Int
  firstRecordDate : Option String
  firstKnownLatitude : Option ℚ
  firstKnownLongitude : Option ℚ
  firstKnownReserve : Option String
  recordSpanYears : Int
  totalRecords : Nat
  gpsLocations : Nat
  allReservesFound : Option String
  geo : GeoRange
deriving DecidableEq

/-- The per-species enrichment shared verbatim by
`generate_missing_species_csv` (lines 418-504) and
`generate_all_species_csv` (lines 532-620): last/first known location
from the first record (in source order) of the last/first year, GPS
count, geographic range, reserve list, and the derived year counts.
`current_year` stands for the `datetime.now().year` read at
line 415 / 529. -/
def speciesDetail (current_year : Int) (rs : List Record) (t : SpeciesTimeline) :
    DetailRow :=
  let species_data := recordsOf rs t.scientificName
  let last_location := (species_data.filter fun r => r.year == t.lastRecord).head?
  let first_location := (species_data.filter fun r => r.year == t.firstRecord).head?
  { scientificName := t.scientificName
    yearsMissing := current_year - t.lastRecord
    lastRecordYear := t.lastRecord
    lastRecordDate := (last_location.bind Record.eventDate).map fun d => d.text.take 10
    lastKnownLatitude := (last_location.bind Record.latitude).map round6
    lastKnownLongitude := (last_location.bind Record.longitude).map round6
    lastKnownReserve := last_location.bind Record.reserveName
    firstRecordYear := t.firstRecord
    firstRecordDate := (first_location.bind Record.eventDate).map fun d => d.text.take 10
    firstKnownLatitude := (first_location.bind Record.latitude).map round6
    firstKnownLongitude := (first_location.bind Record.longitude).map round6
    firstKnownReserve := first_location.bind Record.reserveName
    recordSpanYears := t.lastRecord - t.firstRecord
    totalRecords := t.totalRecords
    gpsLocations := (gpsSubset species_data).length
    allReservesFound := joinReserves (dedupKeepFirst [] (species_data.filterMap Record.reserveName))
    geo := geoRange species_data }

/-- `generate_missing_species_csv` (lines 406-518): `None` (no file) when
the missing set is empty; otherwise one enriched row per missing species,
sorted by `Years_Missing` descending (`sort_values(ascending=False)`). -/
def generate_missing_species_csv (current_year : Int) (rs : List Record)
    (missing : List SpeciesTimeline) : Option (List DetailRow) :=
  if missing.isEmpty then none
  else some (List.insertionSort (fun a b => b.yearsMissing ≤ a.yearsMissing)
    (missing.map (speciesDetail current_year rs)))

/-- One row of the full-species CSV: the enrichment plus the
`Missing_Status` label (line 593). -/
structure AllSpeciesRow where
  detail : DetailRow
  missingStatus : String
deriving DecidableEq

/-- `generate_all_species_csv` (lines 520-640): `None` (no file) when the
timeline is empty; otherwise one row per species with a
"Missing"/"Recent" status (`last_year < self.cutoff_year`, line 592),
sorted by `Years_Missing` descending. -/
def generate_all_species_csv (current_year cutoff : Int) (rs : List Record)
    (timeline : List SpeciesTimeline) : Option (List AllSpeciesRow) :=
  if timeline.isEmpty then none
  else some (List.insertionSort (fun a b => b.detail.yearsMissing ≤ a.detail.yearsMissing)
    (timeline.map fun t =>
      { detail := speciesDetail current_year rs t
        missingStatus := if t.lastRecord < cutoff then "Missing" else "Recent"
        : AllSpeciesRow }))

/-- One entry of the JavaScript data dump written by `export_data_to_js`
(lines 726-770): the four projected CSV columns plus the age bucket. -/
structure JsRecord where
  scientificName : Option String
  latitude : Option ℚ
  longitude : Option ℚ
  year : Option Int
  ageCategory : String
deriving DecidableEq

/-- `get_age_category` (lines 742-755): "Unknown date" for a null year,
else bucket `age = current_year - int(year)` into the four ranges. -/
def get_age_category (current_year : Int) (year : Option Int) : String :=
  match year with
  | none => "Unknown date"
  | some y =>
    let age := current_year - y
    if age < 5 then "< 5 years"
    else if 5 ≤ age ∧ age < 10 then "5-10 years"
    else if 10 ≤ age ∧ age < 20 then "10-20 years"
    else "20+ years"

/-- `export_data_to_js` (lines 726-770): read the raw CSV (no year
cleaning), keep only rows with both coordinates
(`dropna(subset=[lat, lon])`), and annotate each kept row with its age
bucket.  `current_year` stands for the `datetime.now().year` read at
line 740. -/
def export_data_to_js (current_year : Int) (rows : List RawRow) : List JsRecord :=
  (rows.filter fun r => r.latitude.isSome && r.longitude.isSome).map fun r =>
    { scientificName := r.scientificName
      latitude := r.latitude
      longitude := r.longitude
      year := r.year
      ageCategory := get_age_category current_year r.year }

/-- The distinct years of the cleaned data, ascending: `sorted(years)` at
line 150, where `years` are the `groupby('Year')` keys. -/
def yearsOf (rs : List Record) : List Int :=
  List.insertionSort (fun a b => a ≤ b) ((rs.map Record.year).dedup)

/-- `set(self.data[self.data['Year'] == y]['Scientific Name'].dropna())`
(line 153): the non-null species names recorded in year `y`. -/
def speciesInYear (rs : List Record) (y : Int) : Finset String :=
  ((rs.filter fun r => r.year == y).filterMap Record.scientificName).toFinset

/-- The loop of lines 151-155: fold over the years with the running
`seen` set, emitting its cardinality after each year. -/
def cumulativeAux (rs : List Record) (seen : Finset String) : List Int → List Nat
  | [] => []
  | y :: ys =>
    (seen ∪ speciesInYear rs y).card :: cumulativeAux rs (seen ∪ speciesInYear rs y) ys

/-- The `cumulative_species` sequence of lines 149-155. -/
def cumulative_species (rs : List Record) : List Nat :=
  cumulativeAux rs ∅ (yearsOf rs)

/-- All distinct non-null species names of the cleaned data. -/
def allSpecies (rs : List Record) : Finset String :=
  (rs.filterMap Record.scientificName).toFinset

/-- The CSV-producing part of `run_analysis` (lines 667-702) as a function
of the raw rows and of the wall-clock year: `load_data` (cleaning),
`analyze_species_timeline`, `identify_missing_species`, then both CSV
exports.  In the source the year is re-read from the clock inside each
stage (lines 78, 415, 529); within one run those reads agree, so a single
`wall_clock_year` argument models them. -/
def pipelineExports (wall_clock_year : Int) (rows : List RawRow) :
    Option (List DetailRow) × Option (List AllSpeciesRow) :=
  let rs := preprocess_dates rows
  let timeline := analyze_species_timeline wall_clock_year recent_years rs
  let missing := identify_missing_species cutoff_year timeline
  (generate_missing_species_csv wall_clock_year rs missing,
   generate_all_species_csv wall_clock_year cutoff_year rs timeline)

/-! ### Sample inputs used by witnesses and counterexamples -/

/-- The spec's §8 worked example: two `SpA` records (1990, 1995) with GPS
coordinates and one `SpB` record (2023) without. -/
def sampleRecords : List Record :=
  [⟨some "SpA", some 10, some 20, none, 1990, none⟩,
   ⟨some "SpA", some 11, some 21, none, 1995, none⟩,
   ⟨some "SpB", none, none, none, 2023, none⟩]

/-- A record with coordinates but a null scientific name. -/
def noNameGpsRecord : Record := ⟨none, some 1, some 2, none, 1990, none⟩

/-- A raw row with neither a `Year` value nor an event date. -/
def noYearRow : RawRow := ⟨some "SpC", none, none, none, none, none⟩

/-- A raw row with a resolvable year but a null scientific name. -/
def noNameYearRow : RawRow := ⟨none, none, none, none, some 1990, none⟩

/-- A raw-row version of the §8 worked example. -/
def sampleRawRows : List RawRow :=
  [⟨some "SpA", some 10, some 20, none, some 1990, none⟩,
   ⟨some "SpA", some 11, some 21, none, some 1995, none⟩,
   ⟨some "SpB", none, none, none, some 2023, none⟩]

/-- The `SpA` timeline row of the worked example at current year 2025. -/
def sampleTimelineA : SpeciesTimeline := ⟨"SpA", 1990, 1995, 2, 5, false, 30⟩

/-! ### Helper lemmas -/

theorem foldl_min_le_init {α : Type*} [LinearOrder α] (y : α) (ys : List α) :
    ys.foldl min y ≤ y := by
  induction ys generalizing y with
  | nil => simp
  | cons a as ih =>
    simp only [List.foldl_cons]
    exact le_trans (ih (min y a)) (min_le_left y a)

theorem init_le_foldl_max {α : Type*} [LinearOrder α] (y : α) (ys : List α) :
    y ≤ ys.foldl max y := by
  induction ys generalizing y with
  | nil => simp
  | cons a as ih =>
    simp only [List.foldl_cons]
    exact le_trans (le_max_left y a) (ih (max y a))

/-- Any member of `analyze_species_timeline` comes from a species name
whose record group is non-empty, and its fields are the fold values of
that group. -/
theorem timeline_mem_destruct {current_year recent : Int} {rs : List Record}
    {t : SpeciesTimeline} (ht : t ∈ analyze_species_timeline current_year recent rs) :
    ∃ name y ys, name ∈ speciesNames rs ∧
      (recordsOf rs name).map Record.year = y :: ys ∧
      t = { scientificName := name
            firstRecord := ys.foldl min y
            lastRecord := ys.foldl max y
            totalRecords := ys.length + 1
            timeSpan := ys.foldl max y - ys.foldl min y
            recentRecords := decide (ys.foldl max y ≥ current_year - recent)
            missingYears := current_year - ys.foldl max y } := by
  simp only [analyze_species_timeline, List.mem_filterMap] at ht
  obtain ⟨name, hname, hsome⟩ := ht
  unfold timelineFor at hsome
  cases h : (recordsOf rs name).map Record.year with
  | nil => rw [h] at hsome; exact absurd hsome (by simp)
  | cons y ys =>
    rw [h] at hsome
    simp only [Option.some.injEq] at hsome
    exact ⟨name, y, ys, hname, h, hsome.symm⟩

/-- Every species name of the timeline is the scientific name of some
record. -/
theorem speciesNames_mem {rs : List Record} {name : String}
    (h : name ∈ speciesNames rs) : ∃ r ∈ rs, r.scientificName = some name := by
  unfold speciesNames at h
  rw [(List.perm_insertionSort _ _).mem_iff, List.mem_dedup, List.mem_filterMap] at h
  exact h

/-! ### Claims -/

instance : IsTotal SpeciesTimeline fun a b => a.lastRecord ≤ b.lastRecord :=
  ⟨fun a b => Int.le_total a.lastRecord b.lastRecord⟩

instance : IsTrans SpeciesTimeline fun a b => a.lastRecord ≤ b.lastRecord :=
  ⟨fun _ _ _ => le_trans⟩

instance : IsTotal DetailRow fun a b => b.yearsMissing ≤ a.yearsMissing :=
  ⟨fun a b => Int.le_total b.yearsMissing a.yearsMissing⟩

instance : IsTrans DetailRow fun a b => b.yearsMissing ≤ a.yearsMissing :=
  ⟨fun _ _ _ hab hbc => le_trans hbc hab⟩

/-- C1: `identify_missing_species` returns exactly the timeline entries
with `last_record_year < cutoff_year` (as a multiset: a permutation of
the filter), sorted ascending by `last_record_year`.  The embedding is a
pure function of the timeline list, mirroring the source's `.copy()`
before sorting: the input frame is not mutated. -/
theorem identify_missing_species_spec (cutoff : Int) (timeline : List SpeciesTimeline) :
    (identify_missing_species cutoff timeline).Perm
      (timeline.filter fun t => decide (t.lastRecord < cutoff))
    ∧ (identify_missing_species cutoff timeline).Sorted
        (fun a b => a.lastRecord ≤ b.lastRecord)
    ∧ ∀ t, t ∈ identify_missing_species cutoff timeline ↔
        t ∈ timeline ∧ t.lastRecord < cutoff := by
  refine ⟨List.perm_insertionSort _ _, List.sorted_insertionSort _ _, ?_⟩
  intro t
  unfold identify_missing_species
  rw [(List.perm_insertionSort _ _).mem_iff, List.mem_filter]
  simp

/-- C2: every row of `analyze_species_timeline` satisfies
`first ≤ last`, `time_span = last - first`, `total_records` = number of
retained records of that species, `is_recent ↔ last ≥ current_year -
recent`, and `years_since_last = current_year - last`. -/
theorem analyze_species_timeline_fields (current_year recent : Int)
    (rs : List Record) (t : SpeciesTimeline)
    (ht : t ∈ analyze_species_timeline current_year recent rs) :
    t.firstRecord ≤ t.lastRecord
    ∧ t.timeSpan = t.lastRecord - t.firstRecord
    ∧ t.totalRecords = (recordsOf rs t.scientificName).length
    ∧ (t.recentRecords = true ↔ current_year - recent ≤ t.lastRecord)
    ∧ t.missingYears = current_year - t.lastRecord := by
  obtain ⟨name, y, ys, -, hmap, rfl⟩ := timeline_mem_destruct ht
  refine ⟨le_trans (foldl_min_le_init y ys) (init_le_foldl_max y ys), rfl, ?_, ?_, rfl⟩
  · have hl : (recordsOf rs name).length = ys.length + 1 := by
      have := congrArg List.length hmap
      simpa using this
    simpa using hl.symm
  · simp [ge_iff_le]

/-- Witness for C2 at the §8 worked example. -/
theorem analyze_species_timeline_fields_witness :
    sampleTimelineA.firstRecord ≤ sampleTimelineA.lastRecord
    ∧ sampleTimelineA.timeSpan = sampleTimelineA.lastRecord - sampleTimelineA.firstRecord
    ∧ sampleTimelineA.totalRecords = (recordsOf sampleRecords sampleTimelineA.scientificName).length
    ∧ (sampleTimelineA.recentRecords = true ↔ 2025 - 5 ≤ sampleTimelineA.lastRecord)
    ∧ sampleTimelineA.missingYears = 2025 - sampleTimelineA.lastRecord :=
  analyze_species_timeline_fields 2025 5 sampleRecords sampleTimelineA (by decide)

/-- C5 (amended): `load_data` fails exactly when the path does not exist;
an input whose rows are all dropped in cleaning is NOT an error — the
loader returns an empty record list. -/
theorem load_data_fails_iff (input : Option (List RawRow)) :
    (∃ e, load_data input = Except.error e) ↔ input = none := by
  cases input with
  | none => exact ⟨fun _ => rfl, fun _ => ⟨LoadError.fileNotFound, rfl⟩⟩
  | some rows => simp [load_data]

/-- C5 counterexample: a present file whose only row has no resolvable
year loads successfully with an empty record sequence, refuting both
"fails … when no rows remain after cleaning" and "otherwise … returns a
non-empty record sequence". -/
theorem load_data_empty_after_cleaning : load_data (some [noYearRow]) = Except.ok [] := rfl

/-- C6 (amended): every retained record's year is the row's resolved year
(rows without a resolvable year, and only those, are dropped), and every
timeline entry's scientific name is the non-null name of some retained
record.  Rows with a null scientific name but a resolvable year are NOT
dropped by the loader; they are only ignored by the timeline grouping. -/
theorem preprocess_year_and_timeline_names (rows : List RawRow) :
    (preprocess_dates rows).map Record.year = rows.filterMap resolveYear
    ∧ ∀ current_year recent t,
        t ∈ analyze_species_timeline current_year recent (preprocess_dates rows) →
        ∃ r ∈ preprocess_dates rows, r.scientificName = some t.scientificName := by
  constructor
  · induction rows with
    | nil => rfl
    | cons a rows ih =>
      cases hr : resolveYear a <;>
        simp [preprocess_dates, List.filterMap_cons, hr] <;>
        simpa [preprocess_dates] using ih
  · intro current_year recent t ht
    obtain ⟨name, y, ys, hname, -, rfl⟩ := timeline_mem_destruct ht
    exact speciesNames_mem hname

/-- C6 counterexample: a row with a null scientific name and year 1990 is
retained by the loader (the claim says rows lacking a non-null scientific
name are dropped). -/
theorem preprocess_keeps_null_names :
    (preprocess_dates [noNameYearRow]).map Record.scientificName = [none] := rfl

/-- Witness for C6 at the worked example. -/
theorem preprocess_year_and_timeline_names_witness :
    (preprocess_dates sampleRawRows).map Record.year = sampleRawRows.filterMap resolveYear
    ∧ ∃ r ∈ preprocess_dates sampleRawRows,
        r.scientificName = some sampleTimelineA.scientificName :=
  ⟨(preprocess_year_and_timeline_names sampleRawRows).1,
   (preprocess_year_and_timeline_names sampleRawRows).2 2025 5 sampleTimelineA (by decide)⟩

/-- C3 (amended): for every cutoff, the historical and recent GPS subsets
are disjoint (every historical record has `year < cutoff`, every recent
one `year ≥ cutoff`) and together they are exactly the `gps_data` frame —
the records with latitude, longitude AND scientific name all present.
The claim's "full GPS-bearing record set" (coordinates only) is larger:
see the counterexample. -/
theorem coverage_partition (cutoff : Int) (rs : List Record) :
    (historical_gps cutoff rs ++ recent_gps cutoff rs).Perm (gps_data rs)
    ∧ (∀ r ∈ historical_gps cutoff rs, r.year < cutoff)
    ∧ (∀ r ∈ recent_gps cutoff rs, cutoff ≤ r.year) := by
  refine ⟨?_, ?_, ?_⟩
  · have hsplit := List.filter_append_perm
      (fun r : Record => decide (r.year < cutoff)) (gps_data rs)
    have e : (gps_data rs).filter (fun r => decide (cutoff ≤ r.year)) =
        (gps_data rs).filter fun r => !decide (r.year < cutoff) := by
      apply List.filter_congr
      intro r _
      rw [← decide_not, decide_eq_decide]
      omega
    unfold historical_gps recent_gps
    rw [e]
    exact hsplit
  · intro r hr
    rw [historical_gps, List.mem_filter] at hr
    exact of_decide_eq_true hr.2
  · intro r hr
    rw [recent_gps, List.mem_filter] at hr
    exact of_decide_eq_true hr.2

/-- C3 counterexample: a record with coordinates but a null scientific
name is GPS-bearing in the claim's sense yet belongs to neither coverage
partition (`gps_data` drops it at line 122), so the union of the two
partitions is not the full GPS-bearing set. -/
theorem coverage_partition_counterexample :
    noNameGpsRecord ∈ gpsBearing [noNameGpsRecord]
    ∧ noNameGpsRecord ∉ historical_gps 2000 [noNameGpsRecord]
    ∧ noNameGpsRecord ∉ recent_gps 2000 [noNameGpsRecord] := by
  decide

/-- Witness for C3 at the worked example. -/
theorem coverage_partition_witness :
    (historical_gps 2000 sampleRecords ++ recent_gps 2000 sampleRecords).Perm
      (gps_data sampleRecords)
    ∧ (⟨some "SpA", some 10, some 20, none, 1990, none⟩ : Record).year < 2000 :=
  ⟨(coverage_partition 2000 sampleRecords).1,
   (coverage_partition 2000 sampleRecords).2.1 _ (by decide)⟩

/-! ### Rounding lemmas for C4 -/

theorem roundHalfEven_intCast (k : ℤ) : roundHalfEven (k : ℚ) = k := by
  unfold roundHalfEven
  rw [Int.floor_intCast]
  norm_num

theorem floor_le_roundHalfEven (q : ℚ) : ⌊q⌋ ≤ roundHalfEven q := by
  unfold roundHalfEven
  split_ifs <;> omega

theorem roundHalfEven_le_floor_add_one (q : ℚ) : roundHalfEven q ≤ ⌊q⌋ + 1 := by
  unfold roundHalfEven
  split_ifs <;> omega

theorem roundHalfEven_mono {a b : ℚ} (h : a ≤ b) : roundHalfEven a ≤ roundHalfEven b := by
  have hff : ⌊a⌋ ≤ ⌊b⌋ := Int.floor_le_floor h
  rcases lt_or_eq_of_le hff with hf | hf
  · calc roundHalfEven a ≤ ⌊a⌋ + 1 := roundHalfEven_le_floor_add_one a
      _ ≤ ⌊b⌋ := by omega
      _ ≤ roundHalfEven b := floor_le_roundHalfEven b
  · unfold roundHalfEven
    rw [← hf]
    have hab : a - ⌊a⌋ ≤ b - ⌊a⌋ := by linarith
    split_ifs <;> first | omega | linarith

/-- The computable rounding agrees with the floor-based one. -/
theorem roundHalfEven6_eq (q : ℚ) : roundHalfEven6 q = roundHalfEven (q * 1000000) := by
  have hd0 : (0 : ℤ) < (q.den : ℤ) := Int.natCast_pos.mpr q.pos
  have hdQ : (0 : ℚ) < ((q.den : ℤ) : ℚ) := by exact_mod_cast hd0
  have hqd : q * 1000000 = ((q.num * 1000000 : ℤ) : ℚ) / ((q.den : ℤ) : ℚ) := by
    conv_lhs => rw [← Rat.num_div_den q]
    push_cast
    ring
  have hfloor : ⌊q * 1000000⌋ = q.num * 1000000 / (q.den : ℤ) := by
    rw [hqd]
    exact_mod_cast Rat.floor_intCast_div_natCast (q.num * 1000000) q.den
  have hfrac : q * 1000000 - (⌊q * 1000000⌋ : ℚ) =
      ((q.num * 1000000 % (q.den : ℤ) : ℤ) : ℚ) / ((q.den : ℤ) : ℚ) := by
    rw [hfloor, Int.emod_def, hqd]
    push_cast
    field_simp
  have hlt : ∀ x : ℤ, ((x : ℚ) / ((q.den : ℤ) : ℚ) < 1/2) ↔ 2 * x < (q.den : ℤ) := by
    intro x
    rw [div_lt_div_iff₀ hdQ (by norm_num : (0:ℚ) < 2), one_mul,
      show ((x : ℚ) * 2) = ((x * 2 : ℤ) : ℚ) by push_cast; ring, Int.cast_lt]
    omega
  have hgt : ∀ x : ℤ, ((1:ℚ)/2 < (x : ℚ) / ((q.den : ℤ) : ℚ)) ↔ (q.den : ℤ) < 2 * x := by
    intro x
    rw [div_lt_div_iff₀ (by norm_num : (0:ℚ) < 2) hdQ, one_mul,
      show ((x : ℚ) * 2) = ((x * 2 : ℤ) : ℚ) by push_cast; ring, Int.cast_lt]
    omega
  unfold roundHalfEven roundHalfEven6
  rw [hfrac, hfloor]
  simp only [hlt, hgt, Int.even_iff]

theorem round6_eq (q : ℚ) :
    round6 q = ((roundHalfEven (q * 1000000) : ℤ) : ℚ) / 1000000 := by
  rw [round6, roundHalfEven6_eq, Rat.mkRat_eq_div]
  norm_num

theorem round6_mono {a b : ℚ} (h : a ≤ b) : round6 a ≤ round6 b := by
  rw [round6_eq, round6_eq]
  have h1 : a * 1000000 ≤ b * 1000000 :=
    mul_le_mul_of_nonneg_right h (by norm_num)
  exact div_le_div_of_nonneg_right (Int.cast_le.mpr (roundHalfEven_mono h1)) (by norm_num)

/-- `round6` is the identity on multiples of `10⁻⁶`. -/
theorem round6_intDiv (k : ℤ) : round6 ((k : ℚ) / 1000000) = (k : ℚ) / 1000000 := by
  rw [round6_eq, div_mul_cancel₀ _ (by norm_num : (1000000 : ℚ) ≠ 0), roundHalfEven_intCast]

/-- The difference of two 6-decimal roundings is itself exact under
`round6`. -/
theorem round6_sub_round6 (x y : ℚ) :
    round6 (round6 x - round6 y) = round6 x - round6 y := by
  rw [round6_eq x, round6_eq y, div_sub_div_same, ← Int.cast_sub, round6_intDiv,
    Int.cast_sub, sub_div]

theorem length_filterMap_of_isSome {α β : Type*} (f : α → Option β) :
    ∀ l : List α, (∀ x ∈ l, (f x).isSome) → (l.filterMap f).length = l.length := by
  intro l
  induction l with
  | nil => simp
  | cons a as ih =>
    intro h
    rcases Option.isSome_iff_exists.mp (h a (by simp)) with ⟨b, hb⟩
    simp [List.filterMap_cons, hb, ih fun x hx => h x (by simp [hx])]

/-- C4: the six geographic-range cells of the Species Detail Enricher are
null exactly when the species has fewer than two GPS-bearing records;
when non-null, the reported (6-decimal-rounded) max is at least the
reported min and each range cell is exactly their difference. -/
theorem geoRange_fields (sd : List Record) :
    ((geoRange sd).minLatitude = none ↔ (gpsSubset sd).length < 2)
    ∧ ((geoRange sd).maxLatitude = none ↔ (gpsSubset sd).length < 2)
    ∧ ((geoRange sd).minLongitude = none ↔ (gpsSubset sd).length < 2)
    ∧ ((geoRange sd).maxLongitude = none ↔ (gpsSubset sd).length < 2)
    ∧ ((geoRange sd).latRange = none ↔ (gpsSubset sd).length < 2)
    ∧ ((geoRange sd).lonRange = none ↔ (gpsSubset sd).length < 2)
    ∧ (∀ a b, (geoRange sd).minLatitude = some a → (geoRange sd).maxLatitude = some b →
        a ≤ b ∧ (geoRange sd).latRange = some (b - a))
    ∧ (∀ a b, (geoRange sd).minLongitude = some a → (geoRange sd).maxLongitude = some b →
        a ≤ b ∧ (geoRange sd).lonRange = some (b - a)) := by
  by_cases hlen : 1 < (gpsSubset sd).length
  · have hallLat : ∀ r ∈ gpsSubset sd, (Record.latitude r).isSome := by
      intro r hr
      rw [gpsSubset, List.mem_filter] at hr
      have h3 := hr.2
      simp only [Bool.and_eq_true] at h3
      exact h3.1
    have hallLon : ∀ r ∈ gpsSubset sd, (Record.longitude r).isSome := by
      intro r hr
      rw [gpsSubset, List.mem_filter] at hr
      have h3 := hr.2
      simp only [Bool.and_eq_true] at h3
      exact h3.2
    have hlatLen := length_filterMap_of_isSome Record.latitude _ hallLat
    have hlonLen := length_filterMap_of_isSome Record.longitude _ hallLon
    have h2 : ¬ (gpsSubset sd).length < 2 := by omega
    cases hla : (gpsSubset sd).filterMap Record.latitude with
    | nil => rw [hla] at hlatLen; simp at hlatLen; omega
    | cons la las =>
    cases hlo : (gpsSubset sd).filterMap Record.longitude with
    | nil => rw [hlo] at hlonLen; simp at hlonLen; omega
    | cons lo los =>
    unfold geoRange
    rw [if_pos hlen, hla, hlo]
    refine ⟨by simp [h2], by simp [h2], by simp [h2], by simp [h2], by simp [h2],
      by simp [h2], ?_, ?_⟩
    · intro a b ha hb
      simp only [Option.some.injEq] at ha hb
      subst ha hb
      exact ⟨round6_mono (le_trans (foldl_min_le_init la las) (init_le_foldl_max la las)),
        congrArg some (round6_sub_round6 _ _)⟩
    · intro a b ha hb
      simp only [Option.some.injEq] at ha hb
      subst ha hb
      exact ⟨round6_mono (le_trans (foldl_min_le_init lo los) (init_le_foldl_max lo los)),
        congrArg some (round6_sub_round6 _ _)⟩
  · have h2 : (gpsSubset sd).length < 2 := by omega
    unfold geoRange
    rw [if_neg hlen]
    refine ⟨by simp [emptyGeoRange, h2], by simp [emptyGeoRange, h2],
      by simp [emptyGeoRange, h2], by simp [emptyGeoRange, h2],
      by simp [emptyGeoRange, h2], by simp [emptyGeoRange, h2], ?_, ?_⟩
    · intro a b ha
      exact absurd ha (by simp [emptyGeoRange])
    · intro a b ha
      exact absurd ha (by simp [emptyGeoRange])

/-- Witness for C4 at the worked example: `SpA` has two GPS records, so
the reported latitude bounds are 10 and 11 with range 1. -/
theorem geoRange_fields_witness :
    (10 : ℚ) ≤ 11 ∧ (geoRange (recordsOf sampleRecords "SpA")).latRange = some (11 - 10) :=
  (geoRange_fields (recordsOf sampleRecords "SpA")).2.2.2.2.2.2.1 10 11
    (by decide) (by decide)

/-- C7: the missing-species export is skipped (`None`) exactly when the
missing set is empty; otherwise it holds one enriched row per missing
species (a permutation of the enriched rows), sorted by years-missing
descending. -/
theorem generate_missing_species_csv_spec (current_year : Int) (rs : List Record)
    (missing : List SpeciesTimeline) :
    (generate_missing_species_csv current_year rs missing = none ↔ missing = [])
    ∧ ∀ out, generate_missing_species_csv current_year rs missing = some out →
        out.Perm (missing.map (speciesDetail current_year rs))
        ∧ out.Sorted (fun a b => b.yearsMissing ≤ a.yearsMissing)
        ∧ out.length = missing.length := by
  constructor
  · unfold generate_missing_species_csv
    split_ifs with h
    · simp [List.isEmpty_iff.mp h]
    · rw [List.isEmpty_iff] at h
      simp [h]
  · intro out hout
    unfold generate_missing_species_csv at hout
    split_ifs at hout with h
    simp only [Option.some.injEq] at hout
    subst hout
    refine ⟨List.perm_insertionSort _ _, List.sorted_insertionSort _ _, ?_⟩
    rw [(List.perm_insertionSort _ _).length_eq, List.length_map]

/-- Witness output for C7: the export at the worked example's missing
set. -/
def c7Out : List DetailRow :=
  List.insertionSort (fun a b => b.yearsMissing ≤ a.yearsMissing)
    ([sampleTimelineA].map (speciesDetail 2025 sampleRecords))

/-- Witness for C7: the worked example has the non-empty missing set
`[SpA]`, and the export satisfies the three properties. -/
theorem generate_missing_species_csv_witness :
    c7Out.Perm ([sampleTimelineA].map (speciesDetail 2025 sampleRecords))
    ∧ c7Out.Sorted (fun a b => b.yearsMissing ≤ a.yearsMissing)
    ∧ c7Out.length = [sampleTimelineA].length :=
  (generate_missing_species_csv_spec 2025 sampleRecords [sampleTimelineA]).2 c7Out rfl

/-- C8 (amended): holding the wall-clock year fixed, the CSV-producing
pipeline is a pure function of the raw rows, so two runs on identical
input and the same wall-clock year produce identical exports; but the
year is a clock read (`datetime.now().year`), not an injected parameter,
so runs in different calendar years differ (see the counterexample). -/
theorem pipeline_deterministic (rows₁ rows₂ : List RawRow) (y₁ y₂ : Int)
    (hrows : rows₁ = rows₂) (hy : y₁ = y₂) :
    pipelineExports y₁ rows₁ = pipelineExports y₂ rows₂ := by
  rw [hrows, hy]

/-- Witness for C8's amended determinism at the worked example. -/
theorem pipeline_deterministic_witness :
    pipelineExports 2025 sampleRawRows = pipelineExports 2025 sampleRawRows :=
  pipeline_deterministic sampleRawRows sampleRawRows 2025 2025 rfl rfl

/-- C8 counterexample: on identical input, the pipeline's exports differ
between wall-clock years 2025 and 2026 (`Years_Missing` changes), so the
run is NOT a function of the input file alone: the reference year is
read from the clock, not injected. -/
theorem pipeline_depends_on_clock :
    pipelineExports 2025 [⟨some "SpA", none, none, none, some 1990, none⟩] ≠
    pipelineExports 2026 [⟨some "SpA", none, none, none, some 1990, none⟩] := by
  decide

/-- C9: every record in the JavaScript dump is a GPS-bearing row (one per
such row) and carries exactly the age bucket of its year: "Unknown date"
for a null year, else "< 5 years" / "5-10 years" / "10-20 years" /
"20+ years" according to `age = current_year - year`. -/
theorem export_age_buckets (current_year : Int) (rows : List RawRow) :
    (export_data_to_js current_year rows).length =
      (rows.filter fun r => r.latitude.isSome && r.longitude.isSome).length
    ∧ ∀ j ∈ export_data_to_js current_year rows,
        (j.year = none → j.ageCategory = "Unknown date")
        ∧ ∀ y, j.year = some y →
            ((current_year - y < 5 → j.ageCategory = "< 5 years")
            ∧ (5 ≤ current_year - y → current_year - y < 10 → j.ageCategory = "5-10 years")
            ∧ (10 ≤ current_year - y → current_year - y < 20 → j.ageCategory = "10-20 years")
            ∧ (20 ≤ current_year - y → j.ageCategory = "20+ years")) := by
  constructor
  · rw [export_data_to_js, List.length_map]
  · intro j hj
    rw [export_data_to_js, List.mem_map] at hj
    obtain ⟨r, -, rfl⟩ := hj
    constructor
    · intro hy
      simp only at hy
      simp [get_age_category, hy]
    · intro y hy
      simp only at hy
      refine ⟨?_, ?_, ?_, ?_⟩ <;>
        · intros
          simp only [get_age_category, hy]
          split_ifs <;> first | rfl | omega

/-- The running count emitted after each year is at least the size of the
set already seen. -/
theorem cumulativeAux_le {rs : List Record} :
    ∀ (ys : List Int) (seen : Finset String) (x : Nat),
      x ∈ cumulativeAux rs seen ys → seen.card ≤ x := by
  intro ys
  induction ys with
  | nil => intro seen x hx; simp [cumulativeAux] at hx
  | cons y ys ih =>
    intro seen x hx
    simp only [cumulativeAux, List.mem_cons] at hx
    rcases hx with rfl | hx
    · exact Finset.card_le_card Finset.subset_union_left
    · exact le_trans (Finset.card_le_card Finset.subset_union_left) (ih _ x hx)

/-- The emitted counts only grow: the seen-set is extended monotonically. -/
theorem cumulativeAux_sorted {rs : List Record} :
    ∀ (ys : List Int) (seen : Finset String),
      (cumulativeAux rs seen ys).Sorted (· ≤ ·) := by
  intro ys
  induction ys with
  | nil => intro seen; simp [cumulativeAux]
  | cons y ys ih =>
    intro seen
    rw [cumulativeAux, List.sorted_cons]
    exact ⟨fun b hb => cumulativeAux_le ys _ b hb, ih _⟩

/-- The last emitted count is the cardinality of the fold of all years. -/
theorem cumulativeAux_getLast {rs : List Record} :
    ∀ (ys : List Int) (seen : Finset String), ys ≠ [] →
      (cumulativeAux rs seen ys).getLast? =
        some ((ys.foldl (fun s y => s ∪ speciesInYear rs y) seen).card) := by
  intro ys
  induction ys with
  | nil => intro seen h; exact absurd rfl h
  | cons y ys ih =>
    intro seen _hne
    rw [cumulativeAux, List.foldl_cons]
    cases hys : ys with
    | nil => simp [cumulativeAux]
    | cons z zs =>
      have hih := ih (seen ∪ speciesInYear rs y) (by simp [hys])
      rw [hys] at hih
      obtain ⟨c, rest, hcr⟩ : ∃ c rest,
          cumulativeAux rs (seen ∪ speciesInYear rs y) (z :: zs) = c :: rest := by
        rw [cumulativeAux]; exact ⟨_, _, rfl⟩
      rw [hcr, List.getLast?_cons_cons, ← hcr, hih]

/-- Membership in the folded union of per-year species sets. -/
theorem foldl_union_mem {rs : List Record} :
    ∀ (ys : List Int) (seen : Finset String) (a : String),
      a ∈ ys.foldl (fun s y => s ∪ speciesInYear rs y) seen ↔
        a ∈ seen ∨ ∃ y ∈ ys, a ∈ speciesInYear rs y := by
  intro ys
  induction ys with
  | nil => simp
  | cons y ys ih =>
    intro seen a
    rw [List.foldl_cons, ih]
    simp only [Finset.mem_union, List.mem_cons]
    constructor
    · rintro (⟨ha | ha⟩ | ⟨z, hz, ha⟩)
      · exact Or.inl ha
      · exact Or.inr ⟨y, Or.inl rfl, ha⟩
      · exact Or.inr ⟨z, Or.inr hz, ha⟩
    · rintro (ha | ⟨z, rfl | hz, ha⟩)
      · exact Or.inl (Or.inl ha)
      · exact Or.inl (Or.inr ha)
      · exact Or.inr ⟨z, hz, ha⟩

/-- Folding the per-year species sets over all distinct years collects
exactly the distinct non-null species names of the data. -/
theorem foldl_union_eq_allSpecies (rs : List Record) :
    (yearsOf rs).foldl (fun s y => s ∪ speciesInYear rs y) ∅ = allSpecies rs := by
  ext a
  rw [foldl_union_mem]
  simp only [Finset.not_mem_empty, false_or]
  constructor
  · rintro ⟨y, -, ha⟩
    rw [speciesInYear, List.mem_toFinset, List.mem_filterMap] at ha
    obtain ⟨r, hr, hname⟩ := ha
    rw [allSpecies, List.mem_toFinset, List.mem_filterMap]
    exact ⟨r, (List.mem_filter.mp hr).1, hname⟩
  · intro ha
    rw [allSpecies, List.mem_toFinset, List.mem_filterMap] at ha
    obtain ⟨r, hr, hname⟩ := ha
    refine ⟨r.year, ?_, ?_⟩
    · rw [yearsOf, (List.perm_insertionSort _ _).mem_iff, List.mem_dedup]
      exact List.mem_map_of_mem Record.year hr
    · rw [speciesInYear, List.mem_toFinset, List.mem_filterMap]
      exact ⟨r, List.mem_filter.mpr ⟨hr, by simp⟩, hname⟩

/-- C10: the cumulative-species-discovered sequence of lines 149-155 is
monotonically nondecreasing, and its final element is the number of
distinct (non-null) species across all retained records. -/
theorem cumulative_species_spec (rs : List Record) (h : rs ≠ []) :
    (cumulative_species rs).Sorted (· ≤ ·)
    ∧ (cumulative_species rs).getLast? = some (allSpecies rs).card := by
  refine ⟨cumulativeAux_sorted _ _, ?_⟩
  have hyne : yearsOf rs ≠ [] := by
    intro hnil
    rw [yearsOf] at hnil
    have hperm := List.perm_insertionSort (fun a b : Int => a ≤ b) ((rs.map Record.year).dedup)
    rw [hnil] at hperm
    have hd : (rs.map Record.year).dedup = [] := hperm.symm.eq_nil
    rw [List.dedup_eq_nil, List.map_eq_nil_iff] at hd
    exact h hd
  rw [cumulative_species, cumulativeAux_getLast _ _ hyne, foldl_union_eq_allSpecies]

/-- Witness for C10 at the worked example. -/
theorem cumulative_species_spec_witness :
    (cumulative_species sampleRecords).Sorted (· ≤ ·)
    ∧ (cumulative_species sampleRecords).getLast? = some (allSpecies sampleRecords).card :=
  cumulative_species_spec sampleRecords (by decide)

/-- Witness for C1: the claim theorem instantiated at the worked
example's timeline. -/
theorem identify_missing_species_spec_witness :
    (identify_missing_species 2000 [sampleTimelineA]).Perm
      ([sampleTimelineA].filter fun t => decide (t.lastRecord < 2000))
    ∧ (identify_missing_species 2000 [sampleTimelineA]).Sorted
        (fun a b => a.lastRecord ≤ b.lastRecord)
    ∧ ∀ t, t ∈ identify_missing_species 2000 [sampleTimelineA] ↔
        t ∈ [sampleTimelineA] ∧ t.lastRecord < 2000 :=
  identify_missing_species_spec 2000 [sampleTimelineA]

/-- Witness for C5: an absent path makes the loader fail. -/
theorem load_data_fails_iff_witness :
    ∃ e, load_data (none : Option (List RawRow)) = Except.error e :=
  (load_data_fails_iff none).mpr rfl

/-- The JavaScript-dump entry of the worked example's first `SpA` row. -/
def jsSampleA : JsRecord := ⟨some "SpA", some 10, some 20, some 1990, "20+ years"⟩

/-- Witness for C9: at current year 2025, the 1990 `SpA` row lands in the
"20+ years" bucket, and the dump has one entry per GPS-bearing row. -/
theorem export_age_buckets_witness :
    ((export_data_to_js 2025 sampleRawRows).length =
      (sampleRawRows.filter fun r => r.latitude.isSome && r.longitude.isSome).length)
    ∧ jsSampleA.ageCategory = "20+ years" :=
  ⟨(export_age_buckets 2025 sampleRawRows).1,
   (((export_age_buckets 2025 sampleRawRows).2 jsSampleA (by decide)).2 1990 rfl).2.2.2
     (by decide)⟩
